import Mathlib

/-!
Shallow embedding of the pyjnest client library (src/pyjnest/__init__.py).

The library is a client for a home-automation web API: a Connection owns
credentials, headers, a status snapshot and per-kind identity caches; User,
Device, Structure and UserSettings are thin views keyed by an id into
sub-mappings of the snapshot.  HTTP is modelled by passing the response as
an explicit argument and recording the requests a call issues.  Python
exceptions are modelled with Except; Python object identity is modelled by
a fresh Nat token drawn from a per-connection counter.
-/

/-- Python values appearing in the status snapshot and request bodies. -/
inductive PyVal where
  | none
  | bool (b : Bool)
  | int (n : Int)
  | str (s : String)
  | list (xs : List PyVal)
  | dict (xs : List (String × PyVal))

/-- Python exceptions raised by the library. -/
inductive PyErr where
  | attributeError
  | keyError
  | valueError (msg : String)
  | runtimeError (msg : String)
  deriving DecidableEq

/-- A JSON-object sub-mapping of the snapshot (insertion-ordered, as a
Python dict). -/
abbrev Dict := List (String × PyVal)

/-- Python dict lookup (first binding of the key). -/
def alookup {α : Type} : List (String × α) → String → Option α
  | [], _ => Option.none
  | (k, v) :: rest, key => if k = key then some v else alookup rest key

/-- Python dict assignment: replace the value in place if the key exists,
otherwise append (insertion order preserved). -/
def aset {α : Type} : List (String × α) → String → α → List (String × α)
  | [], key, val => [(key, val)]
  | (k, v) :: rest, key, val =>
      if k = key then (k, val) :: rest else (k, v) :: aset rest key val

/-- Character-list version of str.startswith for an ASCII literal. -/
def charsStart : List Char → List Char → Bool
  | [], _ => true
  | _ :: _, [] => false
  | a :: as, b :: bs => a == b && charsStart as bs

/-- name.startswith of an underscore, on the character data. -/
def headIsUnderscore (s : String) : Bool :=
  match s.data with
  | c :: _ => c == '_'
  | [] => false

/-- The attribute-name rewrite shared by every getattr in the source:
a leading underscore is replaced by a dollar sign, other names pass
through unchanged. -/
def mangle (s : String) : String :=
  if headIsUnderscore s then ⟨'$' :: s.data.drop 1⟩ else s

mutual
/-- Python repr of a snapshot value.  The quote-selection and escaping
Python applies to exotic characters inside string reprs is not reproduced;
it is never reached by the version values fed to the format call below. -/
def pyRepr : PyVal → String
  | .str s => "\x27" ++ s ++ "\x27"
  | .none => "None"
  | .bool true => "True"
  | .bool false => "False"
  | .int n => toString n
  | .list xs => "[" ++ pyReprList xs ++ "]"
  | .dict xs => "\x7b" ++ pyReprDict xs ++ "\x7d"

/-- Comma-joined reprs of a list of values. -/
def pyReprList : List PyVal → String
  | [] => ""
  | [v] => pyRepr v
  | v :: rest => pyRepr v ++ ", " ++ pyReprList rest

/-- Comma-joined reprs of the entries of a dict. -/
def pyReprDict : List (String × PyVal) → String
  | [] => ""
  | [(k, v)] => "\x27" ++ k ++ "\x27: " ++ pyRepr v
  | (k, v) :: rest => "\x27" ++ k ++ "\x27: " ++ pyRepr v ++ ", " ++ pyReprDict rest
end

/-- Python str, as applied by the format call building the version header:
identical to repr except on strings. -/
def pyStr : PyVal → String
  | .str s => s
  | v => pyRepr v

/-- Python truthiness, as consumed by the not in toggle_away. -/
def pyTruthy : PyVal → Bool
  | .none => false
  | .bool b => b
  | .int n => n != 0
  | .str s => s != ""
  | .list xs => !xs.isEmpty
  | .dict xs => !xs.isEmpty

/-- isinstance of bool, the validation in the away assignment. -/
def PyVal.isBool : PyVal → Bool
  | .bool _ => true
  | _ => false

/-- Membership of the fan-mode value in the literal list of the source:
value in a list of the two strings auto and on. -/
def isFanValue : PyVal → Bool
  | .str s => s == "auto" || s == "on"
  | _ => false

/-- The status snapshot fetched by update_status: a JSON object whose
top-level keys are the six entity collections, each mapping an id to a
sub-mapping. -/
structure Status where
  device : List (String × Dict)
  shared : List (String × Dict)
  user : List (String × Dict)
  user_settings : List (String × Dict)
  link : List (String × Dict)
  structureSec : List (String × Dict)

/-- The Connection object.  username, password, headers and the three
identity caches are created by Connection.init; transport_url and status
only appear after login, so they are Option (reading them earlier raises
AttributeError).  userSettingsCache models the _user_settings attribute,
which no method of Connection ever creates: it stays at Option.none, and
reading it raises AttributeError.  nextObj is the supply of identity
tokens standing in for Python object identity. -/
structure Conn where
  username : String
  password : String
  headers : List (String × String)
  users : List (String × Nat)
  devices : List (String × Nat)
  structures : List (String × Nat)
  userSettingsCache : Option (List (String × Nat))
  transport_url : Option String
  status : Option Status
  nextObj : Nat

/-- Connection.init: stores the credentials, the two static headers, and
the three empty identity caches.  It creates no _user_settings cache, no
transport_url and no status. -/
def connInit (username password : String) : Conn :=
  { username := username
    password := password
    headers := [("User-Agent", "Nest/1.1.0.10 CFNetwork/548.0.4"),
                ("Accept-Language", "en-us")]
    users := []
    devices := []
    structures := []
    userSettingsCache := Option.none
    transport_url := Option.none
    status := Option.none
    nextObj := 0 }

/-! ## View objects and identity caches

Each view kind has a classmethod get (cache hit or construct) and a
constructor (cache check, snapshot checks for Device and Structure, then
cache insertion).  Construction returns the fresh identity token; a bare
RuntimeError in the source is runtimeError with an empty message. -/

/-- User constructor: duplicate-id check on the _users cache, then
insertion. -/
def User.init (conn : Conn) (user_id : String) : Except PyErr (Conn × Nat) :=
  match alookup conn.users user_id with
  | some _ => .error (.runtimeError "")
  | Option.none =>
      .ok ({ conn with users := aset conn.users user_id conn.nextObj,
                       nextObj := conn.nextObj + 1 }, conn.nextObj)

/-- User.get: return the cached instance for the id, or construct one. -/
def User.get (conn : Conn) (user_id : String) : Except PyErr (Conn × Nat) :=
  match alookup conn.users user_id with
  | some tok => .ok (conn, tok)
  | Option.none => User.init conn user_id

/-- UserSettings constructor: reads the _user_settings cache, an attribute
Connection.init never creates (userSettingsCache at Option.none raises
AttributeError). -/
def UserSettings.init (conn : Conn) (user_id : String) : Except PyErr (Conn × Nat) :=
  match conn.userSettingsCache with
  | Option.none => .error .attributeError
  | some cache =>
      match alookup cache user_id with
      | some _ => .error (.runtimeError "")
      | Option.none =>
          .ok ({ conn with userSettingsCache := some (aset cache user_id conn.nextObj),
                           nextObj := conn.nextObj + 1 }, conn.nextObj)

/-- UserSettings.get: cache hit or construct; the cache read itself raises
AttributeError because the attribute does not exist. -/
def UserSettings.get (conn : Conn) (user_id : String) : Except PyErr (Conn × Nat) :=
  match conn.userSettingsCache with
  | Option.none => .error .attributeError
  | some cache =>
      match alookup cache user_id with
      | some tok => .ok (conn, tok)
      | Option.none => UserSettings.init conn user_id

/-- The settings property of User: delegates to UserSettings.get with the
same connection and id. -/
def User.settings (conn : Conn) (user_id : String) : Except PyErr (Conn × Nat) :=
  UserSettings.get conn user_id

/-- Device.clean_id: strip one leading device-dot marker from the id. -/
def Device.clean_id (device_id : String) : String :=
  if charsStart "device.".data device_id.data then ⟨device_id.data.drop 7⟩
  else device_id

/-- Device constructor: cleans the id once more, checks the _devices cache,
then requires the id in both the device and the shared snapshot sections,
then inserts into the cache. -/
def Device.init (conn : Conn) (device_id : String) : Except PyErr (Conn × Nat) :=
  let i := Device.clean_id device_id
  match alookup conn.devices i with
  | some _ => .error (.runtimeError "")
  | Option.none =>
      match conn.status with
      | Option.none => .error .attributeError
      | some st =>
          if (alookup st.device i).isSome then
            if (alookup st.shared i).isSome then
              .ok ({ conn with devices := aset conn.devices i conn.nextObj,
                               nextObj := conn.nextObj + 1 }, conn.nextObj)
            else .error (.runtimeError "")
          else .error (.runtimeError "")

/-- Device.get: cleans the id, returns the cached instance or constructs
one (the constructor cleans the already-cleaned id again). -/
def Device.get (conn : Conn) (device_id : String) : Except PyErr (Conn × Nat) :=
  let i := Device.clean_id device_id
  match alookup conn.devices i with
  | some tok => .ok (conn, tok)
  | Option.none => Device.init conn i

/-- Structure.clean_id: strip one leading structure-dot marker. -/
def Structure.clean_id (structure_id : String) : String :=
  if charsStart "structure.".data structure_id.data then ⟨structure_id.data.drop 10⟩
  else structure_id

/-- Structure constructor: cleans the id once more, requires the id in the
structure snapshot section first, then the duplicate check on the
_structures cache, then inserts. -/
def Structure.init (conn : Conn) (structure_id : String) : Except PyErr (Conn × Nat) :=
  let i := Structure.clean_id structure_id
  match conn.status with
  | Option.none => .error .attributeError
  | some st =>
      if (alookup st.structureSec i).isSome then
        match alookup conn.structures i with
        | some _ => .error (.runtimeError "")
        | Option.none =>
            .ok ({ conn with structures := aset conn.structures i conn.nextObj,
                             nextObj := conn.nextObj + 1 }, conn.nextObj)
      else .error (.runtimeError "")

/-- Structure.get: cleans the id, returns the cached instance or constructs
one. -/
def Structure.get (conn : Conn) (structure_id : String) : Except PyErr (Conn × Nat) :=
  let i := Structure.clean_id structure_id
  match alookup conn.structures i with
  | some tok => .ok (conn, tok)
  | Option.none => Structure.init conn i

/-! ## Dynamic attribute lookup

Every getattr first rewrites a leading underscore to a dollar sign and then
looks the key up in the sub-mapping of its view (Device merges the device
section before the shared section); a miss raises AttributeError, a missing
snapshot entry for the id raises KeyError, a missing snapshot raises
AttributeError. -/

/-- Lookup of an already-rewritten key in the user sub-mapping. -/
def User.lookupAttr (conn : Conn) (user_id key : String) : Except PyErr PyVal :=
  match conn.status with
  | Option.none => .error .attributeError
  | some st =>
      match alookup st.user user_id with
      | Option.none => .error .keyError
      | some u =>
          match alookup u key with
          | some v => .ok v
          | Option.none => .error .attributeError

/-- User getattr: rewrite then look up. -/
def User.getattr (conn : Conn) (user_id name : String) : Except PyErr PyVal :=
  User.lookupAttr conn user_id (mangle name)

/-- Lookup of an already-rewritten key in the user_settings sub-mapping. -/
def UserSettings.lookupAttr (conn : Conn) (user_id key : String) : Except PyErr PyVal :=
  match conn.status with
  | Option.none => .error .attributeError
  | some st =>
      match alookup st.user_settings user_id with
      | Option.none => .error .keyError
      | some u =>
          match alookup u key with
          | some v => .ok v
          | Option.none => .error .attributeError

/-- UserSettings getattr: rewrite then look up. -/
def UserSettings.getattr (conn : Conn) (user_id name : String) : Except PyErr PyVal :=
  UserSettings.lookupAttr conn user_id (mangle name)

/-- Lookup of an already-rewritten key for Device: the device sub-mapping
is consulted first, the shared sub-mapping second. -/
def Device.lookupAttr (conn : Conn) (device_id key : String) : Except PyErr PyVal :=
  match conn.status with
  | Option.none => .error .attributeError
  | some st =>
      match alookup st.device device_id with
      | Option.none => .error .keyError
      | some d =>
          match alookup d key with
          | some v => .ok v
          | Option.none =>
              match alookup st.shared device_id with
              | Option.none => .error .keyError
              | some sh =>
                  match alookup sh key with
                  | some v => .ok v
                  | Option.none => .error .attributeError

/-- Device getattr: rewrite then merged lookup. -/
def Device.getattr (conn : Conn) (device_id name : String) : Except PyErr PyVal :=
  Device.lookupAttr conn device_id (mangle name)

/-- Lookup of an already-rewritten key in the structure sub-mapping. -/
def Structure.lookupAttr (conn : Conn) (structure_id key : String) : Except PyErr PyVal :=
  match conn.status with
  | Option.none => .error .attributeError
  | some st =>
      match alookup st.structureSec structure_id with
      | Option.none => .error .keyError
      | some s =>
          match alookup s key with
          | some v => .ok v
          | Option.none => .error .attributeError

/-- Structure getattr: rewrite then look up. -/
def Structure.getattr (conn : Conn) (structure_id name : String) : Except PyErr PyVal :=
  Structure.lookupAttr conn structure_id (mangle name)

/-! ## HTTP write calls

A write call is a pure function of the connection, the target id, the
assigned value and the response the server would return; it reports the
connection after the call, the list of requests issued (empty when
validation or a cache lookup raises first) and the outcome. -/

/-- The response to a POST, as consumed by the source: status_code and
text. -/
structure HttpResponse where
  status_code : Nat
  text : String

/-- The body handed to the POST call: either a dict serialized by the
json dump call, or a raw dict passed directly as form data (the away
write does the latter). -/
inductive ReqBody where
  | jsonOf (d : Dict)
  | form (d : Dict)

/-- One issued POST request. -/
structure HttpRequest where
  url : String
  body : ReqBody
  headers : List (String × String)

/-- Outcome of a write call. -/
structure SetterResult where
  conn : Conn
  requests : List HttpRequest
  result : Except PyErr Unit

/-- The fan_mode assignment: validate the value against the two literal
strings, then POST the single-key json body to the per-device put
endpoint with a json content-type header; a non-200 response raises
RuntimeError carrying the response text. -/
def fan_mode_set (conn : Conn) (device_id : String) (value : PyVal)
    (resp : HttpResponse) : SetterResult :=
  if isFanValue value then
    match conn.transport_url with
    | Option.none => { conn := conn, requests := [], result := .error .attributeError }
    | some tu =>
        let data : Dict := [("fan_mode", value)]
        let headers := aset conn.headers "Content-Type" "application/json"
        let req : HttpRequest :=
          { url := tu ++ "/v2/put/device." ++ device_id
            body := .jsonOf data
            headers := headers }
        if resp.status_code ≠ 200 then
          { conn := conn, requests := [req],
            result := .error (.runtimeError
              ("Could not set the fan mode: \"" ++ resp.text ++ "\"")) }
        else { conn := conn, requests := [req], result := .ok () }
  else
    { conn := conn, requests := [],
      result := .error (.valueError "fan mode must be \"auto\" or \"on\"") }

/-- toggle_fan_mode: read the cached fan_mode from the device sub-mapping,
index the two-entry literal dict with it (KeyError on any other value),
and assign the flipped value. -/
def toggle_fan_mode (conn : Conn) (device_id : String)
    (resp : HttpResponse) : SetterResult :=
  match conn.status with
  | Option.none => { conn := conn, requests := [], result := .error .attributeError }
  | some st =>
      match alookup st.device device_id with
      | Option.none => { conn := conn, requests := [], result := .error .keyError }
      | some d =>
          match alookup d "fan_mode" with
          | Option.none => { conn := conn, requests := [], result := .error .keyError }
          | some fm =>
              match fm with
              | .str "auto" => fan_mode_set conn device_id (.str "on") resp
              | .str "on" => fan_mode_set conn device_id (.str "auto") resp
              | _ => { conn := conn, requests := [], result := .error .keyError }

/-- The target_temperature assignment: no validation of the value; build
the json body with target_change_pending and the value, read the cached
shared sub-mapping for the version header, and POST to the per-device
shared put endpoint; a non-200 response raises RuntimeError carrying the
response text. -/
def target_temperature_set (conn : Conn) (device_id : String) (value : PyVal)
    (resp : HttpResponse) : SetterResult :=
  let data : Dict := [("target_change_pending", .bool true),
                      ("target_temperature", value)]
  match conn.status with
  | Option.none => { conn := conn, requests := [], result := .error .attributeError }
  | some st =>
      match alookup st.shared device_id with
      | Option.none => { conn := conn, requests := [], result := .error .keyError }
      | some sh =>
          match alookup sh "$version" with
          | Option.none => { conn := conn, requests := [], result := .error .keyError }
          | some ver =>
              match conn.transport_url with
              | Option.none =>
                  { conn := conn, requests := [], result := .error .attributeError }
              | some tu =>
                  let headers :=
                    aset (aset conn.headers "X-nl-base-version" (pyStr ver))
                      "Content-Type" "application/json"
                  let req : HttpRequest :=
                    { url := tu ++ "/v2/put/shared." ++ device_id
                      body := .jsonOf data
                      headers := headers }
                  if resp.status_code ≠ 200 then
                    { conn := conn, requests := [req],
                      result := .error (.runtimeError
                        ("Could not set the target temperature: \"" ++ resp.text ++ "\"")) }
                  else { conn := conn, requests := [req], result := .ok () }

/-- The away assignment.  Validation first: a non-bool raises ValueError.
In the source the dict literal for the body is closed immediately after
the away entry and the two following lines naming away_timestamp and
away_setter are orphaned, invalid Python that keeps the module from even
importing; this embedding follows the parseable fragment, so the body
carries only the away key and is passed as raw form data, not through the
json dump the other writes use.  The version header is read from the
cached structure sub-mapping, and a non-200 response raises RuntimeError
carrying the response text. -/
def away_set (conn : Conn) (structure_id : String) (value : PyVal)
    (resp : HttpResponse) : SetterResult :=
  if value.isBool then
    let data : Dict := [("away", value)]
    match conn.status with
    | Option.none => { conn := conn, requests := [], result := .error .attributeError }
    | some st =>
        match alookup st.structureSec structure_id with
        | Option.none => { conn := conn, requests := [], result := .error .keyError }
        | some s =>
            match alookup s "$version" with
            | Option.none => { conn := conn, requests := [], result := .error .keyError }
            | some ver =>
                match conn.transport_url with
                | Option.none =>
                    { conn := conn, requests := [], result := .error .attributeError }
                | some tu =>
                    let headers :=
                      aset (aset conn.headers "X-nl-base-version" (pyStr ver))
                        "Content-Type" "application/json"
                    let req : HttpRequest :=
                      { url := tu ++ "/v2/put/structure." ++ structure_id
                        body := .form data
                        headers := headers }
                    if resp.status_code ≠ 200 then
                      { conn := conn, requests := [req],
                        result := .error (.runtimeError
                          ("Could not set away: \"" ++ resp.text ++ "\"")) }
                    else { conn := conn, requests := [req], result := .ok () }
  else
    { conn := conn, requests := [],
      result := .error (.valueError "Away can only be set to True or False") }

/-- toggle_away: read the cached away entry of the structure sub-mapping
and assign its Python negation (the not of its truthiness, always a
bool). -/
def toggle_away (conn : Conn) (structure_id : String)
    (resp : HttpResponse) : SetterResult :=
  match conn.status with
  | Option.none => { conn := conn, requests := [], result := .error .attributeError }
  | some st =>
      match alookup st.structureSec structure_id with
      | Option.none => { conn := conn, requests := [], result := .error .keyError }
      | some s =>
          match alookup s "away" with
          | Option.none => { conn := conn, requests := [], result := .error .keyError }
          | some a => away_set conn structure_id (.bool (!(pyTruthy a))) resp

/-! ## Concrete fixtures for witnesses and counterexamples -/

/-- Device sub-mapping used by the concrete examples. -/
def exDevDict : Dict := [("fan_mode", .str "auto"), ("speed", .int 4), ("_x", .int 7)]

/-- Shared sub-mapping used by the concrete examples. -/
def exSharedDict : Dict := [("target_temperature", .int 20), ("$version", .int 5)]

/-- User sub-mapping used by the concrete examples. -/
def exUserDict : Dict := [("name1", .str "ada"), ("$version", .int 3)]

/-- Structure sub-mapping used by the concrete examples. -/
def exStructDict : Dict := [("away", .bool false), ("$version", .int 9)]

/-- Status snapshot used by the concrete examples. -/
def exStatus : Status :=
  { device := [("d1", exDevDict)]
    shared := [("d1", exSharedDict)]
    user := [("u1", exUserDict)]
    user_settings := [("u1", [])]
    link := [("d1", [("structure", .str "structure.s1")])]
    structureSec := [("s1", exStructDict)] }

/-- A logged-in connection over the example snapshot. -/
def exConn : Conn :=
  { connInit "user@example.com" "pw" with
      transport_url := some "https://t"
      status := some exStatus }

/-- The example connection after constructing the device view for d1. -/
def exConnD : Conn := { exConn with devices := [("d1", 0)], nextObj := 1 }

/-- Snapshot for the doubled-marker example: one device under the plain
id x in both sections. -/
def dupStatus : Status :=
  { device := [("x", [])]
    shared := [("x", [])]
    user := []
    user_settings := []
    link := []
    structureSec := [] }

/-- Connection over the doubled-marker snapshot. -/
def dupConn : Conn := { connInit "u" "p" with status := some dupStatus }

/-- The doubled-marker connection after the first lookup cached the device
under the doubly-stripped id x. -/
def dupConn2 : Conn := { dupConn with devices := [("x", 0)], nextObj := 1 }

/-- A successful response. -/
def respOk : HttpResponse := { status_code := 200, text := "" }

/-- A failing response whose body is the text bad. -/
def respBad : HttpResponse := { status_code := 404, text := "bad" }

/-! ## Helper lemmas on the dict operations -/

theorem alookup_aset_self {α : Type} (m : List (String × α)) (k : String) (v : α) :
    alookup (aset m k v) k = some v := by
  induction m with
  | nil => simp [aset, alookup]
  | cons hd tl ih =>
      obtain ⟨k0, v0⟩ := hd
      by_cases h : k0 = k
      · simp [aset, alookup, h]
      · simp [aset, alookup, h, ih]

theorem alookup_aset_ne {α : Type} (m : List (String × α)) (k k2 : String) (v : α)
    (h : k ≠ k2) : alookup (aset m k v) k2 = alookup m k2 := by
  induction m with
  | nil => simp [aset, alookup, h]
  | cons hd tl ih =>
      obtain ⟨k0, v0⟩ := hd
      by_cases h0 : k0 = k
      · subst h0
        simp [aset, alookup, h]
      · simp [aset, alookup, h0, ih]

theorem mangle_eq_self (s : String) (h : headIsUnderscore s = false) :
    mangle s = s := by
  simp [mangle, h]

/-! ## Claim theorems -/

/-- Claim C1 (code bug): the away assignment is claimed to POST a body
holding away, away_timestamp and away_setter plus the version header from
the cached structure version.  In the source the body dict literal is
closed right after the away entry, the away_timestamp and away_setter
lines are orphaned (invalid Python: the module cannot import), and the
dict is passed raw rather than json-dumped.  Evaluating the parseable
fragment on a concrete structure: exactly one request is issued, its body
carries only the away key and no away_timestamp or away_setter entry,
while the version header is present as claimed. -/
theorem claim_C1 :
    (away_set exConn "s1" (.bool true) respOk).requests =
      [{ url := "https://t/v2/put/structure.s1"
         body := .form [("away", .bool true)]
         headers := [("User-Agent", "Nest/1.1.0.10 CFNetwork/548.0.4"),
                     ("Accept-Language", "en-us"),
                     ("X-nl-base-version", "9"),
                     ("Content-Type", "application/json")] }] ∧
    alookup [("away", PyVal.bool true)] "away_timestamp" = Option.none ∧
    alookup [("away", PyVal.bool true)] "away_setter" = Option.none :=
  ⟨rfl, rfl, rfl⟩

/-- Claim C4: assigning a fan-mode value other than the strings auto and
on raises ValueError with the literal message, issues no request, and
leaves the connection unchanged. -/
theorem claim_C4 (conn : Conn) (device_id : String) (value : PyVal)
    (resp : HttpResponse)
    (h1 : value ≠ PyVal.str "auto") (h2 : value ≠ PyVal.str "on") :
    fan_mode_set conn device_id value resp =
      { conn := conn, requests := [],
        result := .error (.valueError "fan mode must be \"auto\" or \"on\"") } := by
  have hv : isFanValue value = false := by
    cases value with
    | str s =>
        have hs1 : s ≠ "auto" := fun h => h1 (by rw [h])
        have hs2 : s ≠ "on" := fun h => h2 (by rw [h])
        simp [isFanValue, hs1, hs2]
    | none => rfl
    | bool b => rfl
    | int n => rfl
    | list xs => rfl
    | dict xs => rfl
  simp [fan_mode_set, hv]

/-- Witness for C4 at the integer value one. -/
theorem claim_C4_witness :
    fan_mode_set exConn "d1" (PyVal.int 1) respOk =
      { conn := exConn, requests := [],
        result := .error (.valueError "fan mode must be \"auto\" or \"on\"") } :=
  claim_C4 exConn "d1" (PyVal.int 1) respOk
    (fun h => PyVal.noConfusion h) (fun h => PyVal.noConfusion h)

/-- Claim C5: assigning a non-bool to away raises ValueError with the
literal message and issues no request. -/
theorem claim_C5 (conn : Conn) (structure_id : String) (value : PyVal)
    (resp : HttpResponse) (h : value.isBool = false) :
    away_set conn structure_id value resp =
      { conn := conn, requests := [],
        result := .error (.valueError "Away can only be set to True or False") } := by
  simp [away_set, h]

/-- Witness for C5 at the integer value one. -/
theorem claim_C5_witness :
    away_set exConn "s1" (PyVal.int 1) respOk =
      { conn := exConn, requests := [],
        result := .error (.valueError "Away can only be set to True or False") } :=
  claim_C5 exConn "s1" (PyVal.int 1) respOk rfl

/-- Claim C9: on a connection fresh from the Connection constructor,
reading the settings property of a User, and hence UserSettings.get,
raises AttributeError: the _user_settings identity cache those functions
read is never created on the connection. -/
theorem claim_C9 (u p uid : String) :
    User.settings (connInit u p) uid = .error .attributeError ∧
    UserSettings.get (connInit u p) uid = .error .attributeError :=
  ⟨rfl, rfl⟩

/-- Claim C10: for every view kind, an attribute name with a leading
underscore is rewritten to the same name with a dollar sign in place of
the underscore, and that key is what is looked up in the sub-mapping. -/
theorem claim_C10 (conn : Conn) (id name : String) (rest : List Char)
    (h : name.data = '_' :: rest) :
    User.getattr conn id name = User.lookupAttr conn id ⟨'$' :: rest⟩ ∧
    UserSettings.getattr conn id name = UserSettings.lookupAttr conn id ⟨'$' :: rest⟩ ∧
    Device.getattr conn id name = Device.lookupAttr conn id ⟨'$' :: rest⟩ ∧
    Structure.getattr conn id name = Structure.lookupAttr conn id ⟨'$' :: rest⟩ := by
  have hh : headIsUnderscore name = true := by
    simp [headIsUnderscore, h]
  have hm : mangle name = ⟨'$' :: rest⟩ := by
    simp [mangle, hh, h]
  exact ⟨by rw [User.getattr, hm], by rw [UserSettings.getattr, hm],
         by rw [Device.getattr, hm], by rw [Structure.getattr, hm]⟩

/-- Witness for C10: on the example user the name with a leading
underscore and the word version reads the dollar-version entry, the
integer three. -/
theorem claim_C10_witness :
    User.getattr exConn "u1" "_version" = User.lookupAttr exConn "u1" "$version" ∧
    User.getattr exConn "u1" "_version" = .ok (.int 3) :=
  ⟨(claim_C10 exConn "u1" "_version" "version".data rfl).1,
   ((claim_C10 exConn "u1" "_version" "version".data rfl).1).trans rfl⟩

/-- Counterexample to claim C7 as stated: the name with a leading
underscore and the letter x is a key of the device sub-mapping of the
example device, yet the dynamic lookup raises AttributeError instead of
returning its value, because the name is first rewritten to a dollar key
that is in neither sub-mapping. -/
theorem claim_C7_counterexample :
    alookup exDevDict "_x" = some (.int 7) ∧
    Device.getattr exConn "d1" "_x" = .error .attributeError :=
  ⟨rfl, rfl⟩

/-- Claim C7 as amended: for a name without a leading underscore, the
dynamic lookup on a device returns the device-section value when the name
is a key there, otherwise the shared-section value when the name is a key
there, and raises AttributeError when it is in neither. -/
theorem claim_C7_amended (conn : Conn) (device_id name : String)
    (st : Status) (d : Dict)
    (hn : headIsUnderscore name = false)
    (hst : conn.status = some st)
    (hd : alookup st.device device_id = some d) :
    (∀ v, alookup d name = some v → Device.getattr conn device_id name = .ok v) ∧
    (alookup d name = Option.none →
      ∀ sh, alookup st.shared device_id = some sh →
        ((∀ v, alookup sh name = some v →
            Device.getattr conn device_id name = .ok v) ∧
         (alookup sh name = Option.none →
            Device.getattr conn device_id name = .error .attributeError))) := by
  have hm : mangle name = name := mangle_eq_self name hn
  refine ⟨?_, ?_⟩
  · intro v hv
    simp only [Device.getattr, hm, Device.lookupAttr, hst, hd, hv]
  · intro hnone sh hsh
    refine ⟨?_, ?_⟩
    · intro v hv
      simp only [Device.getattr, hm, Device.lookupAttr, hst, hd, hnone, hsh, hv]
    · intro hnone2
      simp only [Device.getattr, hm, Device.lookupAttr, hst, hd, hnone, hsh, hnone2]

/-- Witness for the amended C7: the example device resolves the name
speed from its device sub-mapping to the integer four. -/
theorem claim_C7_amended_witness :
    Device.getattr exConn "d1" "speed" = .ok (.int 4) :=
  (claim_C7_amended exConn "d1" "speed" exStatus exDevDict rfl rfl rfl).1 (.int 4) rfl

/-- Claim C6: for every value, valid or not, the target-temperature
assignment issues exactly one POST to the per-device shared put endpoint
whose json body holds target_change_pending true and the raw value, and
whose headers carry the version header taken from the cached shared
sub-mapping. -/
theorem claim_C6 (conn : Conn) (device_id : String) (value : PyVal)
    (resp : HttpResponse) (st : Status) (sh : Dict) (ver : PyVal) (tu : String)
    (hst : conn.status = some st) (hsh : alookup st.shared device_id = some sh)
    (hver : alookup sh "$version" = some ver) (htu : conn.transport_url = some tu) :
    ∃ hs, (target_temperature_set conn device_id value resp).requests =
        [{ url := tu ++ "/v2/put/shared." ++ device_id
           body := .jsonOf [("target_change_pending", .bool true),
                            ("target_temperature", value)]
           headers := hs }] ∧
      alookup hs "X-nl-base-version" = some (pyStr ver) := by
  refine ⟨aset (aset conn.headers "X-nl-base-version" (pyStr ver))
            "Content-Type" "application/json", ?_, ?_⟩
  · by_cases h200 : resp.status_code = 200 <;>
      simp [target_temperature_set, hst, hsh, hver, htu, h200]
  · rw [alookup_aset_ne _ _ _ _ (by decide)]
    exact alookup_aset_self _ _ _

/-- Witness for C6: the example device, assigned a string value with no
validation, issues the one request with the version header five. -/
theorem claim_C6_witness :
    ∃ hs, (target_temperature_set exConn "d1" (.str "weird") respBad).requests =
        [{ url := "https://t/v2/put/shared.d1"
           body := .jsonOf [("target_change_pending", .bool true),
                            ("target_temperature", .str "weird")]
           headers := hs }] ∧
      alookup hs "X-nl-base-version" = some (pyStr (.int 5)) :=
  claim_C6 exConn "d1" (.str "weird") respBad exStatus exSharedDict (.int 5)
    "https://t" rfl rfl rfl rfl

/-- Claim C8: with a cached fan_mode of auto the toggle performs the
fan-mode write of on and with on it writes auto; with a cached boolean
away the toggle performs the away write of its negation. -/
theorem claim_C8 :
    (∀ conn did resp st d, conn.status = some st →
        alookup st.device did = some d →
        ((alookup d "fan_mode" = some (.str "auto") →
            toggle_fan_mode conn did resp = fan_mode_set conn did (.str "on") resp) ∧
         (alookup d "fan_mode" = some (.str "on") →
            toggle_fan_mode conn did resp = fan_mode_set conn did (.str "auto") resp))) ∧
    (∀ conn sid resp st s b, conn.status = some st →
        alookup st.structureSec sid = some s →
        alookup s "away" = some (.bool b) →
        toggle_away conn sid resp = away_set conn sid (.bool (!b)) resp) := by
  refine ⟨?_, ?_⟩
  · intro conn did resp st d hst hd
    refine ⟨?_, ?_⟩ <;> intro hfm <;>
      simp only [toggle_fan_mode, hst, hd, hfm]
  · intro conn sid resp st s b hst hs ha
    simp only [toggle_away, hst, hs, ha, pyTruthy]

/-- Witness for C8: the example structure has away false cached, and its
toggle is the away write of true. -/
theorem claim_C8_witness :
    toggle_away exConn "s1" respOk = away_set exConn "s1" (.bool true) respOk :=
  claim_C8.2 exConn "s1" respOk exStatus exStructDict false rfl rfl rfl

/-- Claim C3: each of the three write operations, once its validation and
cache reads have passed, raises RuntimeError carrying the response text
in its message on any non-200 response and returns silently on a 200
response. -/
theorem claim_C3 (conn : Conn) (tu : String) (resp : HttpResponse)
    (htu : conn.transport_url = some tu) :
    (∀ did value, isFanValue value = true →
       ((resp.status_code ≠ 200 →
           (fan_mode_set conn did value resp).result =
             .error (.runtimeError
               ("Could not set the fan mode: \"" ++ resp.text ++ "\""))) ∧
        (resp.status_code = 200 →
           (fan_mode_set conn did value resp).result = .ok ()))) ∧
    (∀ did value st sh ver, conn.status = some st →
       alookup st.shared did = some sh → alookup sh "$version" = some ver →
       ((resp.status_code ≠ 200 →
           (target_temperature_set conn did value resp).result =
             .error (.runtimeError
               ("Could not set the target temperature: \"" ++ resp.text ++ "\""))) ∧
        (resp.status_code = 200 →
           (target_temperature_set conn did value resp).result = .ok ()))) ∧
    (∀ sid b st s ver, conn.status = some st →
       alookup st.structureSec sid = some s → alookup s "$version" = some ver →
       ((resp.status_code ≠ 200 →
           (away_set conn sid (.bool b) resp).result =
             .error (.runtimeError
               ("Could not set away: \"" ++ resp.text ++ "\""))) ∧
        (resp.status_code = 200 →
           (away_set conn sid (.bool b) resp).result = .ok ()))) := by
  refine ⟨?_, ?_, ?_⟩
  · intro did value hval
    refine ⟨?_, ?_⟩ <;> intro h200 <;>
      simp [fan_mode_set, hval, htu, h200]
  · intro did value st sh ver hst hsh hver
    refine ⟨?_, ?_⟩ <;> intro h200 <;>
      simp [target_temperature_set, hst, hsh, hver, htu, h200]
  · intro sid b st s ver hst hs hver
    refine ⟨?_, ?_⟩ <;> intro h200 <;>
      simp [away_set, PyVal.isBool, hst, hs, hver, htu, h200]

/-- Witness for C3: a 404 with body bad on the fan write raises with the
body in the message, and a 200 on the away write returns silently. -/
theorem claim_C3_witness :
    (fan_mode_set exConn "d1" (.str "on") respBad).result =
      .error (.runtimeError "Could not set the fan mode: \"bad\"") ∧
    (away_set exConn "s1" (.bool true) respOk).result = .ok () :=
  ⟨((claim_C3 exConn "https://t" respBad rfl).1 "d1" (.str "on") rfl).1
     (by decide),
   ((claim_C3 exConn "https://t" respOk rfl).2.2 "s1" true exStatus exStructDict
     (.int 9) rfl rfl rfl).2 rfl⟩

/-- Counterexample to claim C2 as stated: on a snapshot holding a device
under the plain id x, looking the device up twice with the id that doubles
the device-dot marker does not return the cached instance the second
time.  The first lookup strips one marker, misses the cache, and the
constructor strips a second marker and caches the instance under the
doubly-stripped id; the second lookup strips one marker, misses the cache
again, and the constructor then hits the cached doubly-stripped id and
raises RuntimeError. -/
theorem claim_C2_counterexample :
    Device.get dupConn "device.device.x" = .ok (dupConn2, 0) ∧
    Device.get dupConn2 "device.device.x" = .error (.runtimeError "") :=
  ⟨rfl, rfl⟩

/-- Claim C2 as amended: restricted to ids on which one application of the
marker strip is stable (one strip equals two strips; every id for User,
which strips nothing), a successful lookup makes a second lookup with the
same id return the identical cached instance, and direct construction for
that id then raises: a bare RuntimeError for User and Device, and for
Structure one of the duplicate-id RuntimeError or the snapshot-lookup
failure, either of which is an uncaught fatal error. -/
theorem claim_C2_amended :
    (∀ conn uid conn2 t, User.get conn uid = .ok (conn2, t) →
        User.get conn2 uid = .ok (conn2, t) ∧
        User.init conn2 uid = .error (.runtimeError "")) ∧
    (∀ conn did conn2 t,
        Device.clean_id (Device.clean_id did) = Device.clean_id did →
        Device.get conn did = .ok (conn2, t) →
        Device.get conn2 did = .ok (conn2, t) ∧
        Device.init conn2 did = .error (.runtimeError "")) ∧
    (∀ conn sid conn2 t,
        Structure.clean_id (Structure.clean_id sid) = Structure.clean_id sid →
        Structure.get conn sid = .ok (conn2, t) →
        Structure.get conn2 sid = .ok (conn2, t) ∧
        ∃ e, Structure.init conn2 sid = .error e) := by
  refine ⟨?_, ?_, ?_⟩
  · intro conn uid conn2 t hget
    simp only [User.get] at hget
    cases h : alookup conn.users uid with
    | some tok =>
        simp only [h] at hget
        obtain ⟨rfl, rfl⟩ : conn = conn2 ∧ tok = t := by simpa using hget
        exact ⟨by simp [User.get, h], by simp [User.init, h]⟩
    | none =>
        simp only [h, User.init] at hget
        obtain ⟨hc, ht⟩ :
            ({ conn with users := aset conn.users uid conn.nextObj,
                         nextObj := conn.nextObj + 1 } = conn2) ∧
              conn.nextObj = t := by simpa using hget
        subst hc
        subst ht
        exact ⟨by simp [User.get, alookup_aset_self],
               by simp [User.init, alookup_aset_self]⟩
  · intro conn did conn2 t hidem hget
    simp only [Device.get] at hget
    cases h : alookup conn.devices (Device.clean_id did) with
    | some tok =>
        simp only [h] at hget
        obtain ⟨rfl, rfl⟩ : conn = conn2 ∧ tok = t := by simpa using hget
        exact ⟨by simp [Device.get, h], by simp [Device.init, h]⟩
    | none =>
        simp only [h, Device.init, hidem] at hget
        cases hst : conn.status with
        | none => simp [hst] at hget
        | some st =>
            simp only [hst] at hget
            cases hdev : (alookup st.device (Device.clean_id did)).isSome with
            | false => simp [hdev] at hget
            | true =>
                simp only [hdev, if_true] at hget
                cases hsh : (alookup st.shared (Device.clean_id did)).isSome with
                | false => simp [hsh] at hget
                | true =>
                    simp only [hsh, if_true, Except.ok.injEq, Prod.mk.injEq] at hget
                    obtain ⟨hc, ht⟩ := hget
                    subst hc
                    subst ht
                    exact ⟨by simp [Device.get, alookup_aset_self],
                           by simp [Device.init, alookup_aset_self]⟩
  · intro conn sid conn2 t hidem hget
    simp only [Structure.get] at hget
    cases h : alookup conn.structures (Structure.clean_id sid) with
    | some tok =>
        simp only [h] at hget
        obtain ⟨rfl, rfl⟩ : conn = conn2 ∧ tok = t := by simpa using hget
        refine ⟨by simp [Structure.get, h], ?_⟩
        cases hst : conn.status with
        | none => exact ⟨.attributeError, by simp [Structure.init, hst]⟩
        | some st =>
            cases hsec : (alookup st.structureSec (Structure.clean_id sid)).isSome with
            | false => exact ⟨.runtimeError "", by simp [Structure.init, hst, hsec]⟩
            | true => exact ⟨.runtimeError "", by simp [Structure.init, hst, hsec, h]⟩
    | none =>
        simp only [h, Structure.init, hidem] at hget
        cases hst : conn.status with
        | none => simp [hst] at hget
        | some st =>
            simp only [hst] at hget
            cases hsec : (alookup st.structureSec (Structure.clean_id sid)).isSome with
            | false => simp [hsec] at hget
            | true =>
                simp only [hsec, if_true, h, Except.ok.injEq, Prod.mk.injEq] at hget
                obtain ⟨hc, ht⟩ := hget
                subst hc
                subst ht
                refine ⟨by simp [Structure.get, alookup_aset_self], ?_⟩
                exact ⟨.runtimeError "",
                  by simp [Structure.init, hst, hsec, alookup_aset_self]⟩

/-- Witness for the amended C2: the example device id is stable under the
strip, its first lookup constructs and caches the instance with token
zero, the second lookup returns that same instance, and direct
construction raises RuntimeError. -/
theorem claim_C2_amended_witness :
    Device.get exConnD "d1" = .ok (exConnD, 0) ∧
    Device.init exConnD "d1" = .error (.runtimeError "") :=
  claim_C2_amended.2.1 exConn "d1" exConnD 0 rfl rfl
